import Mathlib

/-!
Shallow embedding of `src/main.rs` of adblock-rust-server: a Unix-socket
daemon that answers network-blocking and cosmetic-hiding queries against a
compiled adblock engine, and maintains a registry of filter-list
subscriptions (file `urls`), refreshing expired lists and caching the
compiled engine.

The matching engine crate (`adblock`) and the HTTP fetcher (`attohttpc`)
are external collaborators; they are modelled as oracle functions.  File
contents are modelled as `String`s (line lists where the code iterates over
lines).  Rust `unwrap`/panic is modelled as `Option`/`Except` failure.
Times are seconds since the epoch, modelled as `Nat` (the values involved
fit u64; no claim concerns integer overflow).
-/

namespace Ars

/-- Splitting a character list at every separator character, Rust
`str::split(char)` style: always at least one (possibly empty) chunk,
empty chunks between adjacent separators, before a leading separator and
after a trailing one. -/
def splitChars (p : Char → Bool) : List Char → List (List Char)
  | [] => [[]]
  | c :: cs =>
    match splitChars p cs with
    | [] => [[]]
    | r :: rs => if p c then [] :: r :: rs else (c :: r) :: rs

/-- Rust `str::split(sep)` on a string, as a list of strings. -/
def strSplit (s : String) (sep : Char) : List String :=
  (splitChars (· = sep) s.data).map List.asString

/-- The lines of a string, split at `'\n'` (Rust `BufRead::lines`; the
carriage-return stripping and the absence of a final empty line in Rust do
not matter here, since the lines are only scanned for a marker no empty
line contains). -/
def strLines (s : String) : List String :=
  (splitChars (· = '\n') s.data).map List.asString

/-- Rust `str::starts_with(char)`. -/
def startsWithChar (c : Char) (s : String) : Bool :=
  match s.data with
  | [] => false
  | a :: _ => a = c

/-- The numeric value of a non-empty all-digit character list, `none` as
soon as a non-digit appears. -/
def digitsVal (acc : Nat) : List Char → Option Nat
  | [] => some acc
  | c :: cs =>
    if c.isDigit then digitsVal (acc * 10 + (c.toNat - 48)) cs else none

/-- Rust `str::parse::<u64>` on a token: an optional leading `+`, then one
or more ASCII digits, value below `2 ^ 64`. -/
def parseU64 (s : String) : Option Nat :=
  match (match s.data with | '+' :: rest => rest | cs => cs) with
  | [] => none
  | c :: cs =>
    match digitsVal 0 (c :: cs) with
    | some n => if n < 2 ^ 64 then some n else none
    | none => none

/-- Whether `pat` occurs as a contiguous subsequence of `s`. -/
def containsSeq (pat : List Char) : List Char → Bool
  | [] => pat.isEmpty
  | c :: cs => pat.isPrefixOf (c :: cs) || containsSeq pat cs

/-- The remainder of `s` just past the first occurrence of `pat`, `none`
when `pat` does not occur. -/
def afterSeq (pat : List Char) : List Char → Option (List Char)
  | [] => if pat.isEmpty then some [] else none
  | c :: cs =>
    if pat.isPrefixOf (c :: cs) then some ((c :: cs).drop pat.length)
    else afterSeq pat cs

/-- Whether a line contains the literal marker `"! Expires: "` as a
substring (Rust `line.contains("! Expires: ")`). -/
def containsExpiresMarker (l : String) : Bool :=
  containsSeq "! Expires: ".data l.data

/-- Failure kinds of a registry pass.  `registryParse` is the
`parse::<u64>().unwrap()` on an expiry token in `parse_urls`; `fetch` is a
failed HTTP request or file write in `update_list`; `expiresParse` is the
`nth(2).unwrap().parse::<u64>().unwrap()` on an `! Expires: ` line in
`update_list`.  Each corresponds to a Rust panic via `unwrap`. -/
inductive PassErr where
  | registryParse
  | fetch
  | expiresParse
deriving DecidableEq, Repr

/-- Rust `update_list(url, lists_dir)` from `src/main.rs` lines 107-134, with
the fetch-and-write step abstracted: `fetched` is `some content` when the
HTTP GET and the file write succeed and `content` is what is then read
back from the list file, `none` when they fail (Rust panics).  The code
scans the content line by line; on the first line containing
`"! Expires: "` it takes the third space-separated token of that line
(`line.split(' ').nth(2)`), parses it as u64 days, and returns
`url ++ " " ++ (days * 24 * 3600 + now)`; a missing or unparsable token is
a panic.  With no marker line it returns `url` alone. -/
def update_list (url : String) (now : Nat) (fetched : Option String) :
    Except PassErr String :=
  match fetched with
  | none => .error .fetch
  | some content =>
    match (strLines content).find? containsExpiresMarker with
    | none => .ok url
    | some l =>
      match (strSplit l ' ').get? 2 with
      | none => .error .expiresParse
      | some tok =>
        match parseU64 tok with
        | none => .error .expiresParse
        | some days =>
          .ok (url ++ " " ++ toString (days * 24 * 3600 + now))

/-- The refresh-entry step as the spec's words describe it (§4.2 / claim
C6), for comparison with `update_list`: find a line containing the marker
`"! Expires: "`, parse the token immediately following the marker as
integer days, and return `"<url> <expiryEpochSeconds>"`; with no marker
line return `"<url>"`. -/
def specRefreshEntry (url : String) (now : Nat) (content : String) :
    Option String :=
  match (strLines content).find? containsExpiresMarker with
  | none => some url
  | some l =>
    match afterSeq "! Expires: ".data l.data with
    | none => none
    | some rest =>
      match (splitChars (· = ' ') rest).head? with
      | none => none
      | some tok =>
        match parseU64 (List.asString tok) with
        | none => none
        | some days =>
          some (url ++ " " ++ toString (days * 24 * 3600 + now))

/-- The per-line refresh decision of `parse_urls` (`src/main.rs` lines
166-169): the boolean condition `!line.starts_with('#') && (force_update
|| parts.clone().count() == 0 || parts.next().unwrap().parse::<u64>()
.unwrap() < timestamp.as_secs())`, where `parts` holds the space-separated
tokens after the url.  `none` models the panic when a present second token
fails to parse as u64 (only reached when `force` is false, by Rust's
short-circuit evaluation order). -/
def needsRefresh (force : Bool) (now : Nat) (line : String) : Option Bool :=
  if startsWithChar '#' line then some false
  else if force then some true
  else
    match (strSplit line ' ').tail with
    | [] => some true
    | tok :: _ =>
      match parseU64 tok with
      | none => none
      | some e => some (decide (e < now))

/-- Processing of one registry line by the loop in `parse_urls` lines
161-179: a line needing refresh is replaced by the result of
`update_list` for its url (the first space-separated token) and the
`updated` flag is set; otherwise the line is pushed back unchanged.
`fetch url` is the oracle for the HTTP GET / file write of `update_list`.
Returns the emitted line together with whether this line was refreshed. -/
def processLine (fetch : String → Option String) (now : Nat) (force : Bool)
    (line : String) : Except PassErr (String × Bool) :=
  match needsRefresh force now line with
  | none => .error .registryParse
  | some false => .ok (line, false)
  | some true =>
    match update_list ((strSplit line ' ').headD "") now
        (fetch ((strSplit line ' ').headD "")) with
    | .error e => .error e
    | .ok s => .ok (s, true)

/-- The whole-file pass of `parse_urls` lines 159-182 over the lines read
from the registry file: builds the output string `out` (each emitted line
followed by `'\n'`) and the `updated` flag (true when any line was
refreshed).  A panic on any line aborts the pass. -/
def parse_urls (fetch : String → Option String) (now : Nat) (force : Bool) :
    List String → Except PassErr (String × Bool)
  | [] => .ok ("", false)
  | l :: ls =>
    match processLine fetch now force l with
    | .error e => .error e
    | .ok (s, r) =>
      match parse_urls fetch now force ls with
      | .error e => .error e
      | .ok (rest, ru) => .ok (s ++ "\n" ++ rest, r || ru)

/-- The file write at the end of `parse_urls` (lines 181-182):
`file.seek(SeekFrom::Start(0))` followed by `file.write_all(out)`, with no
truncation of the file.  The resulting content is the new bytes followed
by whatever old bytes lie past the written length.  Content is modelled as
a `String` with character positions standing in for byte offsets (the
inputs used are ASCII, where the two coincide). -/
def overwriteFromStart (old new_ : String) : String :=
  new_ ++ old.drop new_.length

/-- The registry grammar of spec §6: a `#` comment, or a non-blank
`<url>` line, or `<url> <expiryEpochSeconds>` with a token that parses as
u64. -/
def wellFormedLine (line : String) : Bool :=
  startsWithChar '#' line ||
    (line != "" &&
      match strSplit line ' ' with
      | [_] => true
      | [_, t] => (parseU64 t).isSome
      | _ => false)

/-- The opaque matching engine (`adblock::Engine`), modelled as oracles
for the three query operations the daemon uses.  `check` is the
composition `Request::new(req_url, source, req_type)` followed by
`check_network_request`; `none` models a panicking `Request::new` (the
`.unwrap()` at line 42), `some b` the `matched` field.
`cosmeticExceptions` and `cosmeticHides` are the `exceptions` and
`hide_selectors` fields of `url_cosmetic_resources(url)` (the set is
modelled as the list in its iteration order).  `hiddenClassIdSelectors`
takes classes, ids and exceptions, as at line 70. -/
structure Engine where
  check : String → String → String → Option Bool
  cosmeticExceptions : String → List String
  cosmeticHides : String → List String
  hiddenClassIdSelectors :
    List String → List String → List String → List String

/-- The engine initialisation modes of `setup_blocker` (enum `InitType`). -/
inductive InitType where
  | default
  | reload
  | update
deriving DecidableEq, Repr

/-- The cosmetic style string built at `src/main.rs` lines 73-78 from the
combined selector list: join with `", "`, append
`" \x7b display: none !important; \x7d"` when the joined string is
non-empty, then always append `'\n'`. -/
def cosmeticStyle (selectors : List String) : String :=
  let style := String.intercalate ", " selectors
  let style :=
    if style.length != 0 then style ++ " \x7b display: none !important; \x7d"
    else style
  style ++ "\n"

/-- One iteration of the request loop of `handle_client` (lines 30-98) on
a received line, from a session whose current engine pointer is `eng`.
`setup` is the oracle for `setup_blocker` (registry pass plus engine
build), `none` modelling a panic inside it, for instance a failed fetch.
Returns `none` when the iteration panics (missing fields, failed
`Request::new`, failed rebuild), otherwise the response written to the
stream and the session's engine pointer after the line (the local
`blocker` variable, reassigned by `r` and `u`). -/
def handleLine (setup : InitType → Option Engine) (eng : Engine)
    (line : String) : Option (String × Engine) :=
  match strSplit line ' ' with
  | [] => none
  | cmd :: rest =>
    match cmd with
    | "n" =>
      match rest with
      | req_url :: source :: req_type :: _ =>
        match eng.check req_url source req_type with
        | none => none
        | some matched => some ((if matched then "1" else "0"), eng)
      | _ => none
    | "c" =>
      match rest with
      | url :: idsRaw :: classesRaw :: _ =>
        let ids := strSplit idsRaw '\t'
        let classes := strSplit classesRaw '\t'
        let selectors :=
          eng.hiddenClassIdSelectors classes ids (eng.cosmeticExceptions url)
            ++ eng.cosmeticHides url
        some (cosmeticStyle selectors, eng)
      | _ => none
    | "r" =>
      match setup InitType.reload with
      | none => none
      | some e => some ("0", e)
    | "u" =>
      match setup InitType.update with
      | none => none
      | some e => some ("0", e)
    | _ => some ("Unknown code supplied", eng)

/-- The request loop of `handle_client` over a list of received lines:
threads the session-local engine pointer through the iterations and
collects the responses written so far.  The final component is `some` of
the engine pointer when the loop ends by the stream closing, `none` when
an iteration panics (the thread dies; responses already written remain
written). -/
def handle_client (setup : InitType → Option Engine) (eng : Engine) :
    List String → List String × Option Engine
  | [] => ([], some eng)
  | l :: ls =>
    match handleLine setup eng l with
    | none => ([], none)
    | some (res, e') =>
      match handle_client setup e' ls with
      | (rs, fin) => (res :: rs, fin)

/-- The daemon state of `start_server` (lines 243-264): the `Arc<Engine>`
built once at line 251 and cloned into every spawned session (the shared
handle), and the per-session local `blocker` pointers of the live
`handle_client` threads (`none` = the thread has died from a panic). -/
structure Daemon where
  shared : Engine
  sessions : List (Option Engine)

/-- Accepting one connection (lines 253-258): the new session's local
engine pointer is a clone of the shared handle. -/
def acceptConn (d : Daemon) : Daemon :=
  { d with sessions := d.sessions ++ [some d.shared] }

/-- Session `i` of the daemon processes one line.  Only that session's
local pointer can change; a panic kills that thread alone.  The shared
handle is never written after startup (no code path assigns the
`start_server` `Arc`).  Returns the new daemon state and the response
written by session `i` (`none` when the session was dead, absent, or
panicked on this line). -/
def stepSession (setup : InitType → Option Engine) (d : Daemon) (i : Nat)
    (line : String) : Daemon × Option String :=
  match d.sessions.get? i with
  | some (some eng) =>
    match handleLine setup eng line with
    | some (res, e') =>
      ({ d with sessions := d.sessions.set i (some e') }, some res)
    | none => ({ d with sessions := d.sessions.set i none }, none)
  | _ => (d, none)

/-- The environment `init_engine` (lines 201-235) runs against:
whether the cache file exists (`Path::new(engine_file).exists()`),
the outcome of `fs::read` plus `Engine::deserialize` on it
(`some e` when both succeed, `none` on any failure), the contents of the
regular files under the lists directory in directory-listing order, and
the external build capability (`FilterSet::add_filter_list` plus
`Engine::from_filter_set`) as an oracle from the concatenated corpus. -/
structure InitEnv where
  cacheExists : Bool
  deserialized : Option Engine
  listFiles : List String
  build : String → Engine

/-- How `init_engine` obtained its engine: from the deserialized cache
file, or through the rebuild path (directory scan, concatenation into
`rules`, call of the build capability). -/
inductive InitResult where
  | fromCache (e : Engine)
  | rebuilt (rules : String) (e : Engine)

/-- Rust `init_engine(engine_file, lists_dir, updated)` (lines 201-235): when
the cache file exists and `updated` is false, try to deserialize it and
return the result; on a deserialization failure recurse once with
`updated` forced true (line 208), which takes the rebuild branch: read
every regular file under the lists directory, concatenate, and build.
The best-effort cache serialization at lines 228-231 does not affect the
returned engine and is not modelled. -/
def init_engine (env : InitEnv) (updated : Bool) : InitResult :=
  if env.cacheExists && !updated then
    match env.deserialized with
    | some b => InitResult.fromCache b
    | none => init_engine env true
  else
    InitResult.rebuilt (String.join env.listFiles)
      (env.build (String.join env.listFiles))
termination_by (if updated then 0 else 1)
decreasing_by
  rename_i h
  cases updated
  · simp
  · simp at h

/-- A concrete engine whose network check never matches, standing for the
snapshot built at startup. -/
def engOld : Engine where
  check := fun _ _ _ => some false
  cosmeticExceptions := fun _ => []
  cosmeticHides := fun _ => []
  hiddenClassIdSelectors := fun _ _ _ => []

/-- A concrete engine whose network check always matches, standing for a
freshly rebuilt snapshot that differs observably from `engOld`. -/
def engNew : Engine where
  check := fun _ _ _ => some true
  cosmeticExceptions := fun _ => []
  cosmeticHides := fun _ => []
  hiddenClassIdSelectors := fun _ _ _ => []

/-- A `setup_blocker` oracle whose registry pass and rebuild succeed,
producing `engNew`. -/
def setupNew : InitType → Option Engine := fun _ => some engNew

/-- A `setup_blocker` oracle that panics (a fetch failure inside
`update_list` reached through `parse_urls`). -/
def setupFail : InitType → Option Engine := fun _ => none

/-- A daemon started with `engOld` that has accepted two connections, A
(index 0) and B (index 1); both session-local pointers are clones of the
shared handle. -/
def daemonTwo : Daemon :=
  acceptConn (acceptConn { shared := engOld, sessions := [] })

/-- A concrete engine for cosmetic queries: the id/class-derived hidden
selectors are `["a.b"]` and the page's hide selectors `["#c"]`. -/
def engCos : Engine where
  check := fun _ _ _ => some false
  cosmeticExceptions := fun _ => []
  cosmeticHides := fun _ => ["#c"]
  hiddenClassIdSelectors := fun _ _ _ => ["a.b"]

/-- An `init_engine` environment with an existing cache file that
deserializes successfully (to `engOld`). -/
def envCacheOk : InitEnv where
  cacheExists := true
  deserialized := some engOld
  listFiles := []
  build := fun _ => engNew

/-- An `init_engine` environment with an existing cache file whose read or
deserialization fails. -/
def envCacheBad : InitEnv where
  cacheExists := true
  deserialized := none
  listFiles := ["rulefile"]
  build := fun _ => engNew

theorem update_list_ne_registryParse (url : String) (now : Nat)
    (fetched : Option String) :
    update_list url now fetched ≠ Except.error PassErr.registryParse := by
  unfold update_list
  rcases fetched with _ | content
  · simp
  · repeat' split
    all_goals simp

theorem wellFormed_needsRefresh_isSome (force : Bool) (now : Nat)
    (line : String) (hw : wellFormedLine line = true) :
    needsRefresh force now line ≠ none := by
  unfold wellFormedLine at hw
  unfold needsRefresh
  by_cases hc : startsWithChar '#' line = true
  · simp [hc]
  · rw [if_neg hc]
    by_cases hf : force = true
    · simp [hf]
    · rw [if_neg hf]
      rw [Bool.or_eq_true] at hw
      rcases hw with hw | hw
      · exact absurd hw hc
      · rw [Bool.and_eq_true] at hw
        obtain ⟨-, hw⟩ := hw
        rcases hsp : strSplit line ' ' with _ | ⟨u, rest⟩
        · rw [hsp] at hw
          simp at hw
        · rw [hsp] at hw
          rcases rest with _ | ⟨t, rest2⟩
          · simp
          · rcases rest2 with _ | _
            · simp only [] at hw
              rcases hp : parseU64 t with _ | e
              · rw [hp] at hw
                simp at hw
              · simp [hp]
            · simp at hw

theorem needsRefresh_skip (now : Nat) (line : String) (tok : String)
    (e : Nat) (hc : startsWithChar '#' line = false)
    (ht : ((strSplit line ' ').tail).head? = some tok)
    (hp : parseU64 tok = some e) (hle : now ≤ e) :
    needsRefresh false now line = some false := by
  unfold needsRefresh
  rw [if_neg (by simp [hc]), if_neg (by simp)]
  rcases ht2 : (strSplit line ' ').tail with _ | ⟨tok2, rest2⟩
  · rw [ht2] at ht
    simp at ht
  · rw [ht2] at ht
    simp only [List.head?_cons, Option.some.injEq] at ht
    subst ht
    simp [hp, decide_eq_false (Nat.not_lt.2 hle)]

/-- Claim C2: a non-comment registry line is refreshed if and only if the
force flag is set, or the line has no expiry token (no second
space-separated token), or its expiry token parses as u64 to a value
strictly below the current wall-clock seconds; and a non-comment line with
an expiry strictly in the future and no force flag is written back
unchanged (and not counted as a refresh). -/
theorem registry_refresh_iff (force : Bool) (now : Nat) (line : String) :
    (needsRefresh force now line = some true ↔
      startsWithChar '#' line = false ∧
        (force = true ∨ (strSplit line ' ').tail = [] ∨
          ∃ tok e, ((strSplit line ' ').tail).head? = some tok ∧
            parseU64 tok = some e ∧ e < now))
    ∧ (∀ fetch tok e, startsWithChar '#' line = false → force = false →
        ((strSplit line ' ').tail).head? = some tok →
        parseU64 tok = some e → now ≤ e →
        processLine fetch now force line = Except.ok (line, false)) := by
  constructor
  · constructor
    · intro h
      unfold needsRefresh at h
      by_cases hc : startsWithChar '#' line = true
      · rw [if_pos hc] at h
        simp at h
      · rw [if_neg hc] at h
        refine ⟨by simpa using hc, ?_⟩
        by_cases hf : force = true
        · exact Or.inl hf
        · rw [if_neg hf] at h
          revert h
          rcases ht : (strSplit line ' ').tail with _ | ⟨tok, rest⟩
          · intro h
            exact Or.inr (Or.inl rfl)
          · intro h
            rcases hp : parseU64 tok with _ | e
            · simp [hp] at h
            · simp only [hp] at h
              have he : e < now := by simpa using h
              exact Or.inr (Or.inr ⟨tok, e, List.head?_cons, hp, he⟩)
    · rintro ⟨hc, hrest⟩
      unfold needsRefresh
      rw [if_neg (by simp [hc])]
      by_cases hf : force = true
      · rw [if_pos hf]
      · rw [if_neg hf]
        rcases hrest with hf2 | ht | ⟨tok, e, ht, hp, hlt⟩
        · exact absurd hf2 hf
        · rw [ht]
        · rcases ht2 : (strSplit line ' ').tail with _ | ⟨tok2, rest2⟩
          · rw [ht2] at ht
          · rw [ht2] at ht
            simp only [List.head?_cons, Option.some.injEq] at ht
            subst ht
            simp [hp, hlt]
  · intro fetch tok e hc hf ht hp hle
    subst hf
    unfold processLine
    rw [needsRefresh_skip now line tok e hc ht hp hle]

/-- Witness for C2 at the line `"https://x/list 100"` with clock 50 and no
force flag: not refreshed, written back unchanged. -/
theorem registry_refresh_iff_witness :
    processLine (fun _ => none) 50 false "https://x/list 100" =
      Except.ok ("https://x/list 100", false) :=
  (registry_refresh_iff false 50 "https://x/list 100").2 (fun _ => none)
    "100" 100 (by decide) rfl (by decide) (by decide) (by decide)
/-- Claim C3: with an unchanged registry (`updated = false`) and an
existing cache file that deserializes successfully, `init_engine` returns
the deserialized snapshot and does not take the rebuild path — no
directory scan and no call to the build capability (and `init_engine`
performs no fetch on any path). -/
theorem cache_reuse (env : InitEnv) (b : Engine)
    (hc : env.cacheExists = true) (hd : env.deserialized = some b) :
    init_engine env false = InitResult.fromCache b ∧
      ∀ rules e, init_engine env false ≠ InitResult.rebuilt rules e := by
  have h : init_engine env false = InitResult.fromCache b := by
    rw [init_engine]
    rw [hc, hd]
    rfl
  exact ⟨h, fun rules e hr => by rw [h] at hr; cases hr⟩

/-- Witness for C3 on a concrete environment with a valid cache. -/
theorem cache_reuse_witness :
    init_engine envCacheOk false = InitResult.fromCache engOld ∧
      ∀ rules e, init_engine envCacheOk false ≠ InitResult.rebuilt rules e :=
  cache_reuse envCacheOk engOld rfl rfl

/-- Claim C8: when the cache read or deserialization fails, `init_engine`
falls through to the rebuild path as a single retry with the
registry-changed flag forced true: the call with `updated = false` equals
the call with `updated = true`, which builds from the concatenated list
files.  `init_engine` is a total function (the recursion at
`src/main.rs:208` bottoms out after this one retry). -/
theorem cache_fail_single_retry (env : InitEnv)
    (hd : env.deserialized = none) :
    init_engine env false = init_engine env true ∧
      init_engine env true =
        InitResult.rebuilt (String.join env.listFiles)
          (env.build (String.join env.listFiles)) := by
  have h1 : init_engine env true =
      InitResult.rebuilt (String.join env.listFiles)
        (env.build (String.join env.listFiles)) := by
    rw [init_engine]
    simp
  refine ⟨?_, h1⟩
  rw [init_engine]
  rcases hc : env.cacheExists with _ | _
  · simp [h1]
  · simp only [Bool.not_false, Bool.and_true, hc, if_true]
    rw [hd]

/-- Witness for C8 on a concrete environment with a corrupt cache. -/
theorem cache_fail_single_retry_witness :
    init_engine envCacheBad false = init_engine envCacheBad true ∧
      init_engine envCacheBad true =
        InitResult.rebuilt (String.join envCacheBad.listFiles)
          (envCacheBad.build (String.join envCacheBad.listFiles)) :=
  cache_fail_single_retry envCacheBad rfl

/-- Counterexample to claim C6 as stated: on fetched content whose marker
line is `"x ! Expires: 4"`, the token immediately following the marker is
`"4"`, so the claim predicts the returned line
`"https://a/l 345600"` (at clock 0) — as `specRefreshEntry`, written from
the spec's words, computes.  The code instead parses the third
space-separated token of the line (`"Expires:"` here), which fails, so
`update_list` panics rather than returning that line. -/
theorem expires_token_counterexample :
    update_list "https://a/l" 0 (some "x ! Expires: 4") =
        Except.error PassErr.expiresParse
      ∧ specRefreshEntry "https://a/l" 0 "x ! Expires: 4" =
          some "https://a/l 345600"
      ∧ update_list "https://a/l" 0 (some "x ! Expires: 4") ≠
          Except.ok "https://a/l 345600" :=
  ⟨rfl, rfl, fun h =>
    Except.noConfusion
      (show (Except.error PassErr.expiresParse : Except PassErr String) =
        Except.ok "https://a/l 345600" from h)⟩

theorem update_list_some (url : String) (now : Nat) (content : String) :
    update_list url now (some content) =
      match (strLines content).find? containsExpiresMarker with
      | none => Except.ok url
      | some l =>
        match (strSplit l ' ').get? 2 with
        | none => Except.error PassErr.expiresParse
        | some tok =>
          match parseU64 tok with
          | none => Except.error PassErr.expiresParse
          | some days =>
            Except.ok (url ++ " " ++ toString (days * 24 * 3600 + now)) :=
  rfl

/-- Claim C6 as amended: `update_list` scans the fetched content line by
line for the first line containing the literal marker `"! Expires: "`; if
none exists the returned line is exactly the url.  If such a line exists,
the code parses the line's third space-separated token (which is the token
immediately following the marker exactly when the marker starts the line)
as u64 days and returns `"<url> <days*24*3600 + now>"`; when that token is
missing or does not parse, the refresh fails (Rust panic). -/
theorem update_list_expiry_amended (url : String) (now : Nat)
    (content : String) :
    ((strLines content).find? containsExpiresMarker = none →
      update_list url now (some content) = Except.ok url)
    ∧ (∀ l d, (strLines content).find? containsExpiresMarker = some l →
        ((strSplit l ' ').get? 2).bind parseU64 = some d →
        update_list url now (some content) =
          Except.ok (url ++ " " ++ toString (d * 24 * 3600 + now)))
    ∧ (∀ l, (strLines content).find? containsExpiresMarker = some l →
        ((strSplit l ' ').get? 2).bind parseU64 = none →
        update_list url now (some content) =
          Except.error PassErr.expiresParse) := by
  refine ⟨?_, ?_, ?_⟩
  · intro hf
    simp only [update_list_some, hf]
  · intro l d hf hb
    rcases hg : (strSplit l ' ').get? 2 with _ | tok
    · rw [hg] at hb
      simp at hb
    · rw [hg] at hb
      simp only [Option.some_bind] at hb
      simp only [update_list_some, hf, hg, hb]
  · intro l hf hb
    rcases hg : (strSplit l ' ').get? 2 with _ | tok
    · simp only [update_list_some, hf, hg]
    · rw [hg] at hb
      simp only [Option.some_bind] at hb
      simp only [update_list_some, hf, hg, hb]

/-- Witness for the amended C6: a typical list whose first marker line is
`"! Expires: 4 days"` (marker at line start, third token `"4"`), fetched
at clock 10. -/
theorem update_list_expiry_amended_witness :
    update_list "https://a/l" 10 (some "! Title: x\n! Expires: 4 days\nrule\n") =
      Except.ok ("https://a/l" ++ " " ++ toString (4 * 24 * 3600 + 10)) :=
  (update_list_expiry_amended "https://a/l" 10
      "! Title: x\n! Expires: 4 days\nrule\n").2.1
    "! Expires: 4 days" 4 (by decide) (by decide)

/-- Claim C5 evaluated at its failing input (code bug).  Registry file
content `"https://a/l 5\n"` (one expired entry) at clock 10, with the
fetched list containing no `! Expires: ` marker: the pass produces the
rewritten content `"https://a/l\n"`, but the write-back
(seek-to-start plus `write_all` with no truncation) leaves the final file
content `"https://a/l\n5\n"` — the tail `"5\n"` of the old content
survives, so the file is not exactly the rewritten lines. -/
theorem registry_rewrite_leftover :
    parse_urls (fun _ => some "filter\n") 10 false ["https://a/l 5"] =
        Except.ok ("https://a/l\n", true)
      ∧ overwriteFromStart "https://a/l 5\n" "https://a/l\n" =
          "https://a/l\n5\n"
      ∧ "https://a/l\n5\n" ≠ "https://a/l\n" :=
  ⟨rfl, by decide, by decide⟩

/-- Claim C1 evaluated at its failing input (code bug).  A daemon built
with `engOld` has two sessions A (0) and B (1); A issues `u`, which
succeeds and produces `engNew` (responding `"0"`).  Yet the shared handle
still holds `engOld`, B's next network query still answers `"0"` from the
old snapshot, and even a connection accepted after the update answers
`"0"` — while `engNew` itself would answer `"1"`.  The new snapshot is
visible only to A's own local pointer; it is never republished. -/
theorem update_not_republished :
    (stepSession setupNew daemonTwo 0 "u").2 = some "0"
      ∧ (stepSession setupNew daemonTwo 0 "u").1.shared = engOld
      ∧ (stepSession setupNew (stepSession setupNew daemonTwo 0 "u").1 1
          "n a b c").2 = some "0"
      ∧ (stepSession setupNew
          (acceptConn (stepSession setupNew daemonTwo 0 "u").1) 2
          "n a b c").2 = some "0"
      ∧ (handleLine setupNew engNew "n a b c").map Prod.fst = some "1"
      ∧ (stepSession setupNew daemonTwo 0 "u").1.sessions.get? 0 =
          some (some engNew) :=
  ⟨by decide, rfl, by decide, by decide, by decide, rfl⟩

/-- Claim C4 evaluated at its failing input (code bug).  A fetch failure
during A's `u` command panics A's thread: no response at all is written
(the claim's "reports failure to its client" does not happen), A's session
dies, while the shared handle, session B, and the acceptor keep working
untouched. -/
theorem fetch_failure_session_scoped :
    (stepSession setupFail daemonTwo 0 "u").2 = none
      ∧ (stepSession setupFail daemonTwo 0 "u").1.shared = engOld
      ∧ (stepSession setupFail daemonTwo 0 "u").1.sessions.get? 0 =
          some none
      ∧ (stepSession setupFail daemonTwo 0 "u").1.sessions.get? 1 =
          some (some engOld)
      ∧ (stepSession setupFail (stepSession setupFail daemonTwo 0 "u").1 1
          "n a b c").2 = some "0"
      ∧ List.length
          (acceptConn (stepSession setupFail daemonTwo 0 "u").1).sessions =
          3 :=
  ⟨by decide, rfl, rfl, rfl, by decide, by decide⟩

/-- Claim C7: a cosmetic response joins the combined selector list (the
id/class-derived hidden selectors together with the page's hide
selectors) with `", "`, appends the literal
`" \x7b display: none !important; \x7d"` exactly when the joined string
is non-empty (`style.len() != 0`), and always appends a newline: zero
selectors give exactly `"\n"` and `["a.b", "#c"]` give the full rule
line; and a well-formed `c` request line is answered exactly by this
formatting applied to the engine's selectors. -/
theorem cosmetic_response_format :
    cosmeticStyle [] = "\n"
      ∧ cosmeticStyle ["a.b", "#c"] =
          "a.b, #c \x7b display: none !important; \x7d\n"
      ∧ (∀ sels, (String.intercalate ", " sels).length = 0 →
          cosmeticStyle sels = String.intercalate ", " sels ++ "\n")
      ∧ (∀ sels, (String.intercalate ", " sels).length ≠ 0 →
          cosmeticStyle sels =
            String.intercalate ", " sels ++
              " \x7b display: none !important; \x7d" ++ "\n")
      ∧ (∀ setup eng line url idsRaw classesRaw rest,
          strSplit line ' ' = "c" :: url :: idsRaw :: classesRaw :: rest →
          handleLine setup eng line =
            some (cosmeticStyle
              (eng.hiddenClassIdSelectors (strSplit classesRaw '\t')
                  (strSplit idsRaw '\t') (eng.cosmeticExceptions url) ++
                eng.cosmeticHides url), eng)) := by
  refine ⟨by decide, by decide, ?_, ?_, ?_⟩
  · intro sels h
    simp [cosmeticStyle, h]
  · intro sels h
    show (if (String.intercalate ", " sels).length != 0 then
        String.intercalate ", " sels ++
          " \x7b display: none !important; \x7d"
      else String.intercalate ", " sels) ++ "\n" = _
    rw [if_pos (by simpa [bne_iff_ne] using h)]
  · intro setup eng line url idsRaw classesRaw rest h
    unfold handleLine
    rw [h]
    rfl

/-- Witness for C7: a `c` request against `engCos` (selectors
`["a.b"]` and `["#c"]`) gets exactly the formatted rule line, and against
`engOld` (no selectors) exactly a bare newline. -/
theorem cosmetic_response_format_witness :
    handleLine setupNew engCos "c http://p x y" =
        some ("a.b, #c \x7b display: none !important; \x7d\n", engCos)
      ∧ handleLine setupNew engOld "c http://p x y" = some ("\n", engOld) :=
  ⟨(cosmetic_response_format).2.2.2.2 setupNew engCos "c http://p x y"
      "http://p" "x" "y" [] rfl,
    (cosmetic_response_format).2.2.2.2 setupNew engOld "c http://p x y"
      "http://p" "x" "y" [] rfl⟩

/-- Claim C9: within one session, a successful `r` (or `u`) line replaces
the session-local engine pointer with the rebuilt snapshot, so every
subsequent line of that session is processed against the new snapshot:
the session run on `"r" :: rest` responds `"0"` and continues exactly as
the run of `rest` started from the new engine. -/
theorem session_rebuild_visible (setup : InitType → Option Engine)
    (eng e2 : Engine) (rest : List String) :
    (setup InitType.reload = some e2 →
      handle_client setup eng ("r" :: rest) =
        ("0" :: (handle_client setup e2 rest).1,
          (handle_client setup e2 rest).2))
    ∧ (setup InitType.update = some e2 →
      handle_client setup eng ("u" :: rest) =
        ("0" :: (handle_client setup e2 rest).1,
          (handle_client setup e2 rest).2)) := by
  constructor
  · intro h
    have hl : handleLine setup eng "r" = some ("0", e2) := by
      have base : handleLine setup eng "r" =
          (match setup InitType.reload with
            | none => none
            | some e => some ("0", e)) := rfl
      rw [base, h]
    simp only [handle_client, hl]
  · intro h
    have hl : handleLine setup eng "u" = some ("0", e2) := by
      have base : handleLine setup eng "u" =
          (match setup InitType.update with
            | none => none
            | some e => some ("0", e)) := rfl
      rw [base, h]
    simp only [handle_client, hl]

/-- Witness for C9: `engOld` answers `"0"` to the query, but after a
successful `r` the same session answers `"1"`, the answer of the rebuilt
`engNew`. -/
theorem session_rebuild_visible_witness :
    handle_client setupNew engOld ["r", "n a b c"] = (["0", "1"], some engNew)
      ∧ (handle_client setupNew engOld ["n a b c"]).1 = ["0"] :=
  ⟨(session_rebuild_visible setupNew engOld engNew ["n a b c"]).1 rfl,
    by decide⟩

/-- Claim C10: under the registry grammar (comment, `<url>`, or
`<url> <expiry>` with a u64 expiry token) the expiry-parse failure of the
registry pass is unreachable, whatever the fetch oracle, clock and force
flag; a non-comment line with an unparsable second token violates the
grammar and makes an unforced pass fail with the registry-parse panic
rather than passing the line through; a blank line also violates the
grammar, and (its fetch, of the empty url, failing) makes the pass fail
with the fetch panic rather than passing it through. -/
theorem registry_grammar_safety :
    (∀ fetch now force line, wellFormedLine line = true →
      processLine fetch now force line ≠ Except.error PassErr.registryParse)
      ∧ (∀ line u t rest2, strSplit line ' ' = u :: t :: rest2 →
          parseU64 t = none → startsWithChar '#' line = false →
          wellFormedLine line = false ∧
            ∀ fetch now, processLine fetch now false line =
              Except.error PassErr.registryParse)
      ∧ (wellFormedLine "" = false ∧
          ∀ fetch now force, fetch "" = none →
            processLine fetch now force "" = Except.error PassErr.fetch) := by
  refine ⟨?_, ?_, ?_, ?_⟩
  · intro fetch now force line hw
    unfold processLine
    rcases hn : needsRefresh force now line with _ | b
    · exact absurd hn (wellFormed_needsRefresh_isSome force now line hw)
    · rcases b with _ | _
      · simp
      · rcases hu : update_list ((strSplit line ' ').headD "") now
            (fetch ((strSplit line ' ').headD "")) with e | s
        · have hne := update_list_ne_registryParse
            ((strSplit line ' ').headD "") now
            (fetch ((strSplit line ' ').headD ""))
          rw [hu] at hne
          simpa using hne
        · simp
  · intro line u t rest2 hsp hp hc
    constructor
    · unfold wellFormedLine
      simp only [hc, hsp, Bool.false_or]
      rcases rest2 with _ | _ <;> simp [hp]
    · intro fetch now
      unfold processLine
      have hn : needsRefresh false now line = none := by
        unfold needsRefresh
        rw [if_neg (by simp [hc]), if_neg (by simp)]
        rw [hsp]
        simp [hp]
      rw [hn]
  · decide
  · intro fetch now force hfe
    unfold processLine
    have hn : needsRefresh force now "" = some true := by
      unfold needsRefresh
      rw [if_neg (by decide)]
      by_cases hf : force = true
      · rw [if_pos hf]
      · rw [if_neg hf]
        rfl
    rw [hn, show (strSplit "" ' ').headD "" = "" from rfl, hfe]
    rfl

/-- Witness for C10: a comment line never hits the registry-parse panic;
the malformed line `"https://x/l abc"` makes the unforced pass fail with
it; the blank line (with the empty-url fetch failing) makes the pass fail
with the fetch panic. -/
theorem registry_grammar_safety_witness :
    processLine (fun _ => some "x") 50 false "# note" ≠
        Except.error PassErr.registryParse
      ∧ processLine (fun _ => some "x") 50 false "https://x/l abc" =
          Except.error PassErr.registryParse
      ∧ processLine (fun _ => none) 50 false "" =
          Except.error PassErr.fetch :=
  ⟨registry_grammar_safety.1 (fun _ => some "x") 50 false "# note"
      (by decide),
    (registry_grammar_safety.2.1 "https://x/l abc" "https://x/l" "abc" []
        rfl (by decide) (by decide)).2 (fun _ => some "x") 50,
    registry_grammar_safety.2.2.2 (fun _ => none) 50 false rfl⟩

end Ars
